import Mathlib

/-!
Verification of the BasicFIM integrity-monitoring engine against its design
specification.

The development shallowly embeds the Python sources under
`services/fim-api/fim_scanner/` (authoritative copy):

* `core/monitor.py` — `FileMonitor.should_monitor_file`,
  `FileMonitor.calculate_file_hash`, `FileMonitor.handle_file_change`,
  `FileMonitor._process_file`, `FileMonitor.scan_path`,
  `FIMEventHandler.on_moved`;
* `database/database.py` — `DatabaseManager.get_file_info`,
  `update_file_info`, `remove_file_info`, `record_event` over the
  `monitored_files` and `change_log` tables;
* `database/initialize_baseline.py` — its own `should_monitor_file` filter.

The filesystem is modelled as a pure map from path strings to the
observation a probe of that path yields; SQLite tables become Lean lists;
wall-clock timestamps become `Nat` parameters.  Fields of the tables that
no modelled code path reads or branches on (autoincrement ids, the
foreign-key link `monitored_file_id`, permission/owner columns, the
free-text `description`) are omitted from the records.
-/

namespace FIM

/-- What a single probe of a path observes at the moment it runs: the path is
absent, or a readable regular file with a given content hash and byte size, or
a file that exists (stat succeeds, so `os.path.exists` and `os.path.getsize`
work) but whose content cannot be read (permission denied, I-O error). -/
inductive FsEntry where
  | absent
  | file (hash : String) (size : Nat)
  | unreadable (size : Nat)
deriving Repr, DecidableEq

/-- `os.path.exists`: true for any path that stats, readable or not. -/
def fsExists : FsEntry → Bool
  | .absent => false
  | .file _ _ => true
  | .unreadable _ => true

/-- `FileMonitor.calculate_file_hash` (monitor.py lines 93-103): streams the
file content into a SHA-256 digest and returns its hex form; any exception
(missing file, permission denied, I-O error) is caught, logged, and turned
into `None`. -/
def calculate_file_hash : FsEntry → Option String
  | .file h _ => some h
  | .absent => none
  | .unreadable _ => none

/-- `os.path.getsize`; the modelled callers only reach it under an
`os.path.exists` guard, so the `absent` value is arbitrary. -/
def fsSize : FsEntry → Nat
  | .file _ s => s
  | .unreadable s => s
  | .absent => 0

/-- One row of the `monitored_files` table (database.py lines 91-108), the
baseline entry for a path.  `baseline_hash` is a nullable TEXT column, hence
`Option String`; `status` is TEXT with default value the string OK. -/
structure MonitoredFile where
  file_path : String
  baseline_hash : Option String
  baseline_size : Nat
  status : String
  last_scanned_time : Nat
  updated_at : Nat
deriving Repr, DecidableEq

/-- One row of the append-only `change_log` table (database.py lines
111-130): a recorded ChangeEvent. -/
structure ChangeEvent where
  file_path : String
  event_type : String
  event_time : Nat
  old_hash : Option String
  new_hash : Option String
  file_size : Nat
deriving Repr, DecidableEq

/-- The durable store: the `monitored_files` baseline table and the
`change_log` audit table. -/
structure DB where
  monitored_files : List MonitoredFile
  change_log : List ChangeEvent
deriving Repr, DecidableEq

/-- `DatabaseManager.get_file_info` (database.py lines 170-185):
`SELECT * FROM monitored_files WHERE file_path = ?`, first row or `None`.
`file_path` is a UNIQUE column, so `find?` on a well-formed table is the
unique match. -/
def get_file_info (db : DB) (file_path : String) : Option MonitoredFile :=
  db.monitored_files.find? (fun f => f.file_path == file_path)

/-- `DatabaseManager.update_file_info` (database.py lines 187-222): if a row
for the path exists, UPDATE it in place setting hash, size, scan time, and
status to the string OK; otherwise INSERT a fresh row with status OK. -/
def update_file_info (db : DB) (file_path : String) (checksum : Option String)
    (file_size : Nat) (now : Nat) : DB :=
  match get_file_info db file_path with
  | some _ =>
    { db with monitored_files := db.monitored_files.map (fun f =>
        if f.file_path == file_path then
          { f with baseline_hash := checksum, baseline_size := file_size,
                   last_scanned_time := now, updated_at := now, status := "OK" }
        else f) }
  | none =>
    { db with monitored_files := db.monitored_files ++
        [{ file_path := file_path, baseline_hash := checksum,
           baseline_size := file_size, status := "OK",
           last_scanned_time := now, updated_at := now }] }

/-- `DatabaseManager.remove_file_info` (database.py lines 224-234):
`DELETE FROM monitored_files WHERE file_path = ?` — the row is physically
removed; no MISSING status is ever written anywhere in the code. -/
def remove_file_info (db : DB) (file_path : String) : DB :=
  { db with monitored_files :=
      db.monitored_files.filter (fun f => !(f.file_path == file_path)) }

/-- The bare INSERT INTO `change_log` performed inside
`DatabaseManager.record_event` (database.py lines 249-267), which can raise
on a durable-store write error; `storeOk = false` models that failure. -/
def record_event_insert (storeOk : Bool) (db : DB) (ev : ChangeEvent) :
    Except String DB :=
  if storeOk then Except.ok { db with change_log := db.change_log ++ [ev] }
  else Except.error "StoreFailure"

/-- `DatabaseManager.record_event` (database.py lines 236-272): the INSERT is
wrapped in try/except — on any exception the connection is rolled back, the
error is logged, and the method returns normally.  No failure ever escapes to
the caller. -/
def record_event (storeOk : Bool) (db : DB) (ev : ChangeEvent) : DB :=
  match record_event_insert storeOk db ev with
  | Except.ok db2 => db2
  | Except.error _ => db

/-- The scan-time-only UPDATE issued inline by `FileMonitor._process_file`
(monitor.py lines 246-254) for an unchanged file: refresh
`last_scanned_time` and `updated_at` of the path's row. -/
def update_scan_time (db : DB) (file_path : String) (now : Nat) : DB :=
  { db with monitored_files := db.monitored_files.map (fun f =>
      if f.file_path == file_path then
        { f with last_scanned_time := now, updated_at := now }
      else f) }

/-- The Python substring test `pattern in file_path`. -/
def strContains (s pat : String) : Bool := decide (List.IsInfix pat.data s.data)

/-- The built-in `skip_patterns` list of `FileMonitor.should_monitor_file`
(monitor.py line 115). -/
def skip_patterns : List String := [".git", "__pycache__", ".pyc", ".tmp", ".log"]

/-- `FileMonitor.should_monitor_file` (monitor.py lines 105-120): reject the
path if any configured exclusion pattern, or any built-in skip pattern, is a
substring of the path string; otherwise accept.  A pure function of the path
string and the configured pattern list. -/
def should_monitor_file (excluded_patterns : List String) (file_path : String) : Bool :=
  if excluded_patterns.any (fun pat => strContains file_path pat) then false
  else if skip_patterns.any (fun pat => strContains file_path pat) then false
  else true

/-- `FileMonitor.handle_file_change` (monitor.py lines 122-176), the change
Reconciler for one `(path, hint)` observation.  `fs` is the filesystem at the
moment of this reconciliation, `storeOk` whether the `change_log` INSERT
succeeds, `now` the wall clock. -/
def handle_file_change (excluded : List String) (storeOk : Bool)
    (fs : String → FsEntry) (db : DB) (file_path : String)
    (event_type : String) (now : Nat) : DB :=
  if !(should_monitor_file excluded file_path) then db
  else
    let probe := fs file_path
    -- new_hash = None; file_size = 0; overwritten when the hint is not
    -- 'deleted' and the path exists (monitor.py lines 130-135)
    let live := event_type != "deleted" && fsExists probe
    let new_hash : Option String := if live then calculate_file_hash probe else none
    let file_size : Nat := if live then fsSize probe else 0
    let existing_info := get_file_info db file_path
    let old_hash : Option String := existing_info.bind (fun i => i.baseline_hash)
    -- monitor.py lines 140-152
    let should_record_event : Bool :=
      if event_type == "deleted" then true
      else if event_type == "created" then existing_info.isNone
      else if event_type == "modified" then !(old_hash == new_hash)
      else true
    let db1 :=
      if should_record_event then
        record_event storeOk db
          { file_path := file_path, event_type := event_type, event_time := now,
            old_hash := old_hash, new_hash := new_hash, file_size := file_size }
      else db
    -- monitor.py lines 169-173
    if event_type != "deleted" then update_file_info db1 file_path new_hash file_size now
    else remove_file_info db1 file_path

/-- `FileMonitor._process_file` (monitor.py lines 215-259), the scan-driven
reconciliation of a single candidate file. -/
def process_file (excluded : List String) (storeOk : Bool)
    (fs : String → FsEntry) (db : DB) (file_path : String)
    (force_rescan : Bool) (now : Nat) : DB :=
  match calculate_file_hash (fs file_path) with
  | none => db
  | some current_hash =>
    match get_file_info db file_path with
    | none => update_file_info db file_path (some current_hash) (fsSize (fs file_path)) now
    | some existing_info =>
      if force_rescan then
        update_file_info db file_path (some current_hash) (fsSize (fs file_path)) now
      else if !(existing_info.baseline_hash == some current_hash) then
        handle_file_change excluded storeOk fs db file_path "modified" now
      else update_scan_time db file_path now

/-- One iteration of the directory walk in `FileMonitor.scan_path`
(monitor.py lines 196-199): a regular file reaches `_process_file` only if
`should_monitor_file` accepts it. -/
def scan_step (excluded : List String) (storeOk : Bool) (fs : String → FsEntry)
    (force_rescan : Bool) (now : Nat) (db : DB) (file_path : String) : DB :=
  if should_monitor_file excluded file_path then
    process_file excluded storeOk fs db file_path force_rescan now
  else db

/-- `FileMonitor.scan_path` over a tree whose regular files, in walk order,
are `files` (the `rglob` results that pass `is_file()`). -/
def scan_files (excluded : List String) (storeOk : Bool) (fs : String → FsEntry)
    (db : DB) (files : List String) (force_rescan : Bool) (now : Nat) : DB :=
  files.foldl (scan_step excluded storeOk fs force_rescan now) db

/-- Index of the last slash of the character list, if any. -/
def lastSlashPos : List Char → Option Nat
  | [] => none
  | c :: rest =>
    match lastSlashPos rest with
    | some k => some (k + 1)
    | none => if c == '/' then some 0 else none

/-- Strip trailing slashes (the `rstrip` step of `posixpath.dirname`). -/
def dropTrailingSlashes (cs : List Char) : List Char :=
  (cs.reverse.dropWhile (fun c => c == '/')).reverse

/-- `os.path.dirname` for POSIX paths: everything up to the last slash, with
trailing slashes stripped unless the head is all slashes. -/
def dirname (p : String) : String :=
  let cs := p.data
  let i := match lastSlashPos cs with
    | some k => k + 1
    | none => 0
  let head := cs.take i
  if head != [] && head.any (fun c => !(c == '/')) then
    String.mk (dropTrailingSlashes head)
  else String.mk head

/-- The `(path, hint)` pairs with which `FIMEventHandler.on_moved`
(monitor.py lines 59-71) invokes `handle_file_change` for one file-move
notification: the source as a deletion, the destination as `moved`, and —
when source and destination directories coincide — the destination once more
as `renamed`. -/
def on_moved_calls (src_path dest_path : String) : List (String × String) :=
  [(src_path, "deleted"), (dest_path, "moved")] ++
    (if dirname src_path == dirname dest_path then [(dest_path, "renamed")] else [])

/-- `FIMEventHandler.on_moved` for a non-directory move: runs the Reconciler
on each of `on_moved_calls`, in order. -/
def on_moved (excluded : List String) (storeOk : Bool) (fs : String → FsEntry)
    (db : DB) (src_path dest_path : String) (now : Nat) : DB :=
  (on_moved_calls src_path dest_path).foldl
    (fun d c => handle_file_change excluded storeOk fs d c.1 c.2 now) db

/-- The file-type of a path as `os.path` classifies it, for the baseline
initializer's filter. -/
inductive PathKind where
  | regularFile
  | directory
  | symlinkToFile
  | symlinkToDir
  | missing
deriving Repr, DecidableEq

/-- `os.path.isfile`: follows symlinks, true for a regular file or a symlink
whose target is a regular file. -/
def isfile : PathKind → Bool
  | .regularFile => true
  | .symlinkToFile => true
  | _ => false

/-- `os.path.islink`. -/
def islink : PathKind → Bool
  | .symlinkToFile => true
  | .symlinkToDir => true
  | _ => false

/-- The `skip_patterns` of `should_monitor_file` in initialize_baseline.py
(lines 33-36). -/
def baseline_skip_patterns : List String :=
  [".git", "__pycache__", ".pyc", ".tmp", ".log",
   ".cache", ".swap", "~", ".DS_Store", "Thumbs.db"]

/-- `should_monitor_file` of initialize_baseline.py (lines 28-46): besides
substring screening it keeps only regular, non-symlink files — unlike the
monitor's predicate, which never consults the filesystem. -/
def baseline_should_monitor_file (kind : String → PathKind) (file_path : String) : Bool :=
  if baseline_skip_patterns.any (fun pat => strContains file_path pat) then false
  else isfile (kind file_path) && !(islink (kind file_path))


/-- Stored baseline hash of a path, when the path has a baseline entry. -/
def baselineHashOf (db : DB) (p : String) : Option (Option String) :=
  (get_file_info db p).map (fun i => i.baseline_hash)

/-- State in which the baseline entry of `p` agrees with what a probe of `fs`
currently sees, whenever `p` is in scope and readable — the state in which a
further scan of `p` emits nothing. -/
def synced (excluded : List String) (fs : String → FsEntry) (db : DB) (p : String) : Prop :=
  should_monitor_file excluded p = true →
    ∀ h : String, calculate_file_hash (fs p) = some h →
      baselineHashOf db p = some (some h)

/-- A baseline table with the scan-time bookkeeping fields blanked, for
stating that an operation touches nothing but those fields. -/
def eraseScanTimes (l : List MonitoredFile) : List MonitoredFile :=
  l.map (fun f => { f with last_scanned_time := 0, updated_at := 0 })

/-- Baseline row for the spec's concrete scenario: /data/config.json with
hash a1b2, status OK. -/
def exRow : MonitoredFile :=
  { file_path := "/data/config.json", baseline_hash := some "a1b2",
    baseline_size := 3, status := "OK", last_scanned_time := 0, updated_at := 0 }

/-- A store holding exactly the scenario row and an empty audit log. -/
def exDb : DB := { monitored_files := [exRow], change_log := [] }

/-- An empty store. -/
def exDbEmpty : DB := { monitored_files := [], change_log := [] }

/-- Filesystem where /data/config.json exists but cannot be read. -/
def exFsUnreadable : String → FsEntry := fun p =>
  if p == "/data/config.json" then FsEntry.unreadable 5 else FsEntry.absent

/-- Filesystem where every path is absent. -/
def exFsAbsent : String → FsEntry := fun _ => FsEntry.absent

/-- Filesystem where /data/config.json now has content hash c3d4. -/
def exFsModified : String → FsEntry := fun p =>
  if p == "/data/config.json" then FsEntry.file "c3d4" 7 else FsEntry.absent

/-- Filesystem holding only a brand-new file /data/new.txt with hash e5f6. -/
def exFsNew : String → FsEntry := fun p =>
  if p == "/data/new.txt" then FsEntry.file "e5f6" 9 else FsEntry.absent

/-- Baseline row for d/a.txt, the source of a same-directory rename. -/
def exRowMove : MonitoredFile :=
  { file_path := "d/a.txt", baseline_hash := some "h1",
    baseline_size := 4, status := "OK", last_scanned_time := 0, updated_at := 0 }

/-- A store holding exactly the rename-source row and an empty audit log. -/
def exDbMove : DB := { monitored_files := [exRowMove], change_log := [] }

/-- Filesystem after the rename: only d/b.txt exists, same content hash h1. -/
def exFsMove : String → FsEntry := fun p =>
  if p == "d/b.txt" then FsEntry.file "h1" 4 else FsEntry.absent

/-- Filesystem after a cross-directory move: only e/b.txt exists, same
content hash h1. -/
def exFsMoveAway : String → FsEntry := fun p =>
  if p == "e/b.txt" then FsEntry.file "h1" 4 else FsEntry.absent

/-- An arbitrary ChangeEvent for exercising record_event. -/
def exEvent : ChangeEvent :=
  { file_path := "/data/config.json", event_type := "modified", event_time := 7,
    old_hash := some "a1b2", new_hash := some "c3d4", file_size := 7 }


/-! Helper lemmas about the embedded store operations and the Reconciler. -/


theorem record_event_true_eq (db : DB) (ev : ChangeEvent) :
    record_event true db ev = { db with change_log := db.change_log ++ [ev] } := rfl

theorem record_event_false_eq (db : DB) (ev : ChangeEvent) :
    record_event false db ev = db := rfl

theorem record_event_monitored_files (s : Bool) (db : DB) (ev : ChangeEvent) :
    (record_event s db ev).monitored_files = db.monitored_files := by
  cases s <;> rfl

theorem get_file_info_record (s : Bool) (db : DB) (ev : ChangeEvent) (p : String) :
    get_file_info (record_event s db ev) p = get_file_info db p := by
  unfold get_file_info
  rw [record_event_monitored_files]

theorem update_file_info_change_log (db : DB) (p : String) (c : Option String)
    (sz now : Nat) : (update_file_info db p c sz now).change_log = db.change_log := by
  unfold update_file_info
  cases get_file_info db p <;> rfl

theorem remove_file_info_change_log (db : DB) (p : String) :
    (remove_file_info db p).change_log = db.change_log := rfl

theorem update_scan_time_change_log (db : DB) (p : String) (now : Nat) :
    (update_scan_time db p now).change_log = db.change_log := rfl

theorem find?_path_map (l : List MonitoredFile) (p : String)
    (g : MonitoredFile → MonitoredFile)
    (hg : ∀ f, (g f).file_path = f.file_path) :
    (l.map g).find? (fun f => f.file_path == p) =
      (l.find? (fun f => f.file_path == p)).map g := by
  rw [List.find?_map]
  have hc : ((fun f : MonitoredFile => f.file_path == p) ∘ g) =
      (fun f : MonitoredFile => f.file_path == p) := by
    funext f
    simp [Function.comp, hg]
  rw [hc]

theorem get_file_info_update_self (db : DB) (p : String) (c : Option String)
    (sz now : Nat) (info : MonitoredFile)
    (h : get_file_info db p = some info) :
    get_file_info (update_file_info db p c sz now) p =
      some { info with
             baseline_hash := c, baseline_size := sz,
             last_scanned_time := now, updated_at := now, status := "OK" } := by
  have hpath : (info.file_path == p) = true := by
    unfold get_file_info at h
    have h2 := List.find?_some h
    exact h2
  unfold update_file_info
  rw [h]
  unfold get_file_info
  show (db.monitored_files.map _).find? _ = _
  rw [find?_path_map _ p _ (fun f => by split <;> rfl)]
  unfold get_file_info at h
  rw [h]
  rw [Option.map_some']
  rw [if_pos hpath]

theorem get_file_info_update_new (db : DB) (p : String) (c : Option String)
    (sz now : Nat) (h : get_file_info db p = none) :
    get_file_info (update_file_info db p c sz now) p =
      some { file_path := p, baseline_hash := c, baseline_size := sz,
             status := "OK", last_scanned_time := now, updated_at := now } := by
  unfold update_file_info
  rw [h]
  unfold get_file_info at h ⊢
  show (db.monitored_files ++ [_]).find? _ = _
  rw [List.find?_append, h]
  simp [List.find?]

theorem get_file_info_update_other (db : DB) (p q : String) (c : Option String)
    (sz now : Nat) (hne : q ≠ p) :
    get_file_info (update_file_info db p c sz now) q = get_file_info db q := by
  unfold update_file_info
  cases hdb : get_file_info db p with
  | none =>
    unfold get_file_info
    show (db.monitored_files ++ [_]).find? _ = _
    rw [List.find?_append]
    have hpq : (p == q) = false := by
      simp
      exact fun h => hne h.symm
    have hsing : (List.find? (fun f => f.file_path == q)
        [({ file_path := p, baseline_hash := c, baseline_size := sz,
            status := "OK", last_scanned_time := now,
            updated_at := now } : MonitoredFile)]) = none := by
      simp [List.find?, hpq]
    rw [hsing]
    cases db.monitored_files.find? (fun f => f.file_path == q) <;> rfl
  | some info =>
    unfold get_file_info
    show (db.monitored_files.map _).find? _ = _
    rw [find?_path_map _ q _ (fun f => by split <;> rfl)]
    cases hq : db.monitored_files.find? (fun f => f.file_path == q) with
    | none => rfl
    | some x =>
      have hxq : x.file_path = q := by simpa using List.find?_some hq
      rw [Option.map_some']
      have hxp : (x.file_path == p) = false := by
        rw [hxq]
        simpa using hne
      rw [if_neg (by simp [hxp])]

theorem get_file_info_scan_time (db : DB) (p q : String) (now : Nat) :
    get_file_info (update_scan_time db p now) q =
      (get_file_info db q).map (fun f =>
        if f.file_path == p then { f with last_scanned_time := now, updated_at := now }
        else f) := by
  unfold update_scan_time get_file_info
  exact find?_path_map _ q _ (fun f => by split <;> rfl)

theorem get_file_info_remove_self (db : DB) (p : String) :
    get_file_info (remove_file_info db p) p = none := by
  unfold remove_file_info get_file_info
  rw [List.find?_eq_none]
  intro x hx
  have := (List.mem_filter.1 hx).2
  simpa using this

theorem get_file_info_remove_other (db : DB) (p q : String) (hne : q ≠ p) :
    get_file_info (remove_file_info db p) q = get_file_info db q := by
  unfold remove_file_info get_file_info
  show (db.monitored_files.filter _).find? _ = _
  induction db.monitored_files with
  | nil => rfl
  | cons a l ih =>
    by_cases hap : a.file_path = p
    · have h1 : (!(a.file_path == p)) = false := by simp [hap]
      have h2 : (a.file_path == q) = false := by
        simp [hap]
        exact fun h => hne h.symm
      simp only [List.filter_cons, h1, Bool.false_eq_true, if_false]
      rw [List.find?_cons_of_neg _ (by simp [h2]), ih]
    · have h1 : (!(a.file_path == p)) = true := by simp [hap]
      simp only [List.filter_cons, h1, if_true]
      by_cases haq : a.file_path = q
      · rw [List.find?_cons_of_pos _ (by simp [haq]),
          List.find?_cons_of_pos _ (by simp [haq])]
      · rw [List.find?_cons_of_neg _ (by simp [haq]),
          List.find?_cons_of_neg _ (by simp [haq]), ih]

theorem remove_file_info_absent (db : DB) (p : String)
    (h : get_file_info db p = none) : remove_file_info db p = db := by
  unfold get_file_info at h
  rw [List.find?_eq_none] at h
  unfold remove_file_info
  have hf : db.monitored_files.filter (fun f => !(f.file_path == p)) =
      db.monitored_files := by
    rw [List.filter_eq_self]
    intro a ha
    simpa using h a ha
  rw [hf]

theorem handle_skip (excluded : List String) (s : Bool) (fs : String → FsEntry)
    (db : DB) (p et : String) (now : Nat)
    (hmon : should_monitor_file excluded p = false) :
    handle_file_change excluded s fs db p et now = db := by
  unfold handle_file_change
  rw [hmon]
  rfl

theorem handle_deleted_eq (excluded : List String) (s : Bool) (fs : String → FsEntry)
    (db : DB) (p : String) (now : Nat)
    (hmon : should_monitor_file excluded p = true) :
    handle_file_change excluded s fs db p "deleted" now =
      remove_file_info (record_event s db
        { file_path := p, event_type := "deleted", event_time := now,
          old_hash := (get_file_info db p).bind (fun i => i.baseline_hash),
          new_hash := none, file_size := 0 }) p := by
  unfold handle_file_change
  rw [hmon]
  rfl

theorem handle_modified_eq (excluded : List String) (s : Bool) (fs : String → FsEntry)
    (db : DB) (p : String) (now : Nat)
    (hmon : should_monitor_file excluded p = true) :
    handle_file_change excluded s fs db p "modified" now =
      (let nh : Option String :=
        if fsExists (fs p) then calculate_file_hash (fs p) else none
       let fsz : Nat := if fsExists (fs p) then fsSize (fs p) else 0
       let old : Option String := (get_file_info db p).bind (fun i => i.baseline_hash)
       let db1 : DB :=
         if !(old == nh) then
           record_event s db
             { file_path := p, event_type := "modified", event_time := now,
               old_hash := old, new_hash := nh, file_size := fsz }
         else db
       update_file_info db1 p nh fsz now) := by
  unfold handle_file_change
  rw [hmon]
  rfl

theorem handle_created_eq (excluded : List String) (s : Bool) (fs : String → FsEntry)
    (db : DB) (p : String) (now : Nat)
    (hmon : should_monitor_file excluded p = true) :
    handle_file_change excluded s fs db p "created" now =
      (let nh : Option String :=
        if fsExists (fs p) then calculate_file_hash (fs p) else none
       let fsz : Nat := if fsExists (fs p) then fsSize (fs p) else 0
       let db1 : DB :=
         if (get_file_info db p).isNone then
           record_event s db
             { file_path := p, event_type := "created", event_time := now,
               old_hash := (get_file_info db p).bind (fun i => i.baseline_hash),
               new_hash := nh, file_size := fsz }
         else db
       update_file_info db1 p nh fsz now) := by
  unfold handle_file_change
  rw [hmon]
  rfl

theorem handle_other_eq (excluded : List String) (s : Bool) (fs : String → FsEntry)
    (db : DB) (p et : String) (now : Nat)
    (hmon : should_monitor_file excluded p = true)
    (h1 : (et == "deleted") = false)
    (h2 : (et == "created") = false)
    (h3 : (et == "modified") = false) :
    handle_file_change excluded s fs db p et now =
      update_file_info (record_event s db
        { file_path := p, event_type := et, event_time := now,
          old_hash := (get_file_info db p).bind (fun i => i.baseline_hash),
          new_hash := if fsExists (fs p) then calculate_file_hash (fs p) else none,
          file_size := if fsExists (fs p) then fsSize (fs p) else 0 }) p
        (if fsExists (fs p) then calculate_file_hash (fs p) else none)
        (if fsExists (fs p) then fsSize (fs p) else 0) now := by
  unfold handle_file_change
  rw [hmon]
  simp only [Bool.not_true, Bool.false_eq_true, if_false, bne, h1, h2, h3,
    Bool.not_false, Bool.true_and, if_true]

theorem baselineHashOf_update (db : DB) (p : String) (c : Option String) (sz now : Nat) :
    baselineHashOf (update_file_info db p c sz now) p = some c := by
  unfold baselineHashOf
  cases h : get_file_info db p with
  | none => rw [get_file_info_update_new db p c sz now h]; rfl
  | some info => rw [get_file_info_update_self db p c sz now info h]; rfl

theorem baselineHashOf_update_other (db : DB) (p q : String) (c : Option String)
    (sz now : Nat) (hne : q ≠ p) :
    baselineHashOf (update_file_info db p c sz now) q = baselineHashOf db q := by
  unfold baselineHashOf
  rw [get_file_info_update_other db p q c sz now hne]

theorem baselineHashOf_record (s : Bool) (db : DB) (ev : ChangeEvent) (q : String) :
    baselineHashOf (record_event s db ev) q = baselineHashOf db q := by
  unfold baselineHashOf
  rw [get_file_info_record]

theorem baselineHashOf_remove_other (db : DB) (p q : String) (hne : q ≠ p) :
    baselineHashOf (remove_file_info db p) q = baselineHashOf db q := by
  unfold baselineHashOf
  rw [get_file_info_remove_other db p q hne]

theorem baselineHashOf_scan_time (db : DB) (p q : String) (now : Nat) :
    baselineHashOf (update_scan_time db p now) q = baselineHashOf db q := by
  unfold baselineHashOf
  rw [get_file_info_scan_time]
  cases get_file_info db q with
  | none => rfl
  | some x =>
    rw [Option.map_some', Option.map_some']
    congr 1
    split <;> rfl

theorem get_file_info_ite_record (c : Bool) (s : Bool) (db : DB) (ev : ChangeEvent)
    (q : String) :
    get_file_info (if c then record_event s db ev else db) q = get_file_info db q := by
  cases c
  · rfl
  · exact get_file_info_record s db ev q

theorem get_file_info_handle_other (excluded : List String) (s : Bool)
    (fs : String → FsEntry) (db : DB) (p et : String) (now : Nat) (q : String)
    (hne : q ≠ p) :
    get_file_info (handle_file_change excluded s fs db p et now) q =
      get_file_info db q := by
  by_cases hmon : should_monitor_file excluded p = true
  · unfold handle_file_change
    rw [hmon]
    simp only [Bool.not_true, Bool.false_eq_true, if_false]
    cases hd : (et != "deleted") with
    | false =>
      rw [if_neg Bool.false_ne_true]
      rw [get_file_info_remove_other _ p q hne, get_file_info_ite_record]
    | true =>
      rw [if_pos rfl]
      rw [get_file_info_update_other _ p q _ _ _ hne, get_file_info_ite_record]
  · rw [handle_skip excluded s fs db p et now (Bool.eq_false_iff.2 hmon)]

theorem baselineHashOf_handle_other (excluded : List String) (s : Bool)
    (fs : String → FsEntry) (db : DB) (p et : String) (now : Nat) (q : String)
    (hne : q ≠ p) :
    baselineHashOf (handle_file_change excluded s fs db p et now) q =
      baselineHashOf db q := by
  unfold baselineHashOf
  rw [get_file_info_handle_other excluded s fs db p et now q hne]

theorem observed_of_hash (fs : String → FsEntry) (p : String) (h : String)
    (hh : calculate_file_hash (fs p) = some h) :
    (if fsExists (fs p) then calculate_file_hash (fs p) else none) = some h := by
  cases hfs : fs p with
  | absent => rw [hfs] at hh; exact absurd hh (by simp [calculate_file_hash])
  | unreadable sz => rw [hfs] at hh; exact absurd hh (by simp [calculate_file_hash])
  | file h2 sz =>
    rw [hfs] at hh
    simpa [fsExists, calculate_file_hash] using hh

theorem baselineHashOf_handle_modified (excluded : List String) (s : Bool)
    (fs : String → FsEntry) (db : DB) (p : String) (now : Nat)
    (hmon : should_monitor_file excluded p = true) :
    baselineHashOf (handle_file_change excluded s fs db p "modified" now) p =
      some (if fsExists (fs p) then calculate_file_hash (fs p) else none) := by
  rw [handle_modified_eq excluded s fs db p now hmon]
  simp only [baselineHashOf_update]

theorem process_file_eq_none (excluded : List String) (s : Bool) (fs : String → FsEntry)
    (db : DB) (p : String) (force : Bool) (now : Nat)
    (hc : calculate_file_hash (fs p) = none) :
    process_file excluded s fs db p force now = db := by
  unfold process_file
  rw [hc]

theorem process_file_eq_new (excluded : List String) (s : Bool) (fs : String → FsEntry)
    (db : DB) (p : String) (force : Bool) (now : Nat) (h : String)
    (hc : calculate_file_hash (fs p) = some h)
    (hg : get_file_info db p = none) :
    process_file excluded s fs db p force now =
      update_file_info db p (some h) (fsSize (fs p)) now := by
  unfold process_file
  rw [hc, hg]

theorem process_file_eq_force (excluded : List String) (s : Bool) (fs : String → FsEntry)
    (db : DB) (p : String) (now : Nat) (h : String) (info : MonitoredFile)
    (hc : calculate_file_hash (fs p) = some h)
    (hg : get_file_info db p = some info) :
    process_file excluded s fs db p true now =
      update_file_info db p (some h) (fsSize (fs p)) now := by
  unfold process_file
  rw [hc, hg]
  simp

theorem process_file_eq_changed (excluded : List String) (s : Bool) (fs : String → FsEntry)
    (db : DB) (p : String) (now : Nat) (h : String) (info : MonitoredFile)
    (hc : calculate_file_hash (fs p) = some h)
    (hg : get_file_info db p = some info)
    (hb : (info.baseline_hash == some h) = false) :
    process_file excluded s fs db p false now =
      handle_file_change excluded s fs db p "modified" now := by
  unfold process_file
  rw [hc, hg]
  simp [hb]

theorem process_file_eq_same (excluded : List String) (s : Bool) (fs : String → FsEntry)
    (db : DB) (p : String) (now : Nat) (h : String) (info : MonitoredFile)
    (hc : calculate_file_hash (fs p) = some h)
    (hg : get_file_info db p = some info)
    (hb : (info.baseline_hash == some h) = true) :
    process_file excluded s fs db p false now = update_scan_time db p now := by
  unfold process_file
  rw [hc, hg]
  simp [hb]

theorem synced_scan_step (excluded : List String) (s : Bool) (fs : String → FsEntry)
    (force : Bool) (now : Nat) (db : DB) (q : String) :
    synced excluded fs (scan_step excluded s fs force now db q) q := by
  intro hmon h hh
  unfold scan_step
  rw [if_pos hmon]
  cases hg : get_file_info db q with
  | none =>
    rw [process_file_eq_new excluded s fs db q force now h hh hg]
    rw [baselineHashOf_update]
  | some info =>
    cases force with
    | true =>
      rw [process_file_eq_force excluded s fs db q now h info hh hg]
      rw [baselineHashOf_update]
    | false =>
      cases hb : (info.baseline_hash == some h) with
      | true =>
        rw [process_file_eq_same excluded s fs db q now h info hh hg hb]
        rw [baselineHashOf_scan_time]
        unfold baselineHashOf
        rw [hg, Option.map_some']
        have hih : info.baseline_hash = some h := by simpa using hb
        rw [hih]
      | false =>
        rw [process_file_eq_changed excluded s fs db q now h info hh hg hb]
        rw [baselineHashOf_handle_modified excluded s fs db q now hmon]
        rw [observed_of_hash fs q h hh]

theorem baselineHashOf_scan_step_other (excluded : List String) (s : Bool)
    (fs : String → FsEntry) (force : Bool) (now : Nat) (db : DB) (q p : String)
    (hne : p ≠ q) :
    baselineHashOf (scan_step excluded s fs force now db q) p = baselineHashOf db p := by
  unfold scan_step
  by_cases hmon : should_monitor_file excluded q = true
  · rw [if_pos hmon]
    cases hc : calculate_file_hash (fs q) with
    | none => rw [process_file_eq_none excluded s fs db q force now hc]
    | some h =>
      cases hg : get_file_info db q with
      | none =>
        rw [process_file_eq_new excluded s fs db q force now h hc hg]
        rw [baselineHashOf_update_other _ q p _ _ _ hne]
      | some info =>
        cases force with
        | true =>
          rw [process_file_eq_force excluded s fs db q now h info hc hg]
          rw [baselineHashOf_update_other _ q p _ _ _ hne]
        | false =>
          cases hb : (info.baseline_hash == some h) with
          | true =>
            rw [process_file_eq_same excluded s fs db q now h info hc hg hb]
            rw [baselineHashOf_scan_time]
          | false =>
            rw [process_file_eq_changed excluded s fs db q now h info hc hg hb]
            rw [baselineHashOf_handle_other excluded s fs db q "modified" now p hne]
  · rw [if_neg hmon]

theorem synced_preserved (excluded : List String) (s : Bool) (fs : String → FsEntry)
    (force : Bool) (now : Nat) (db : DB) (p q : String)
    (hs : synced excluded fs db p) :
    synced excluded fs (scan_step excluded s fs force now db q) p := by
  by_cases hpq : p = q
  · subst hpq
    exact synced_scan_step excluded s fs force now db p
  · intro hmon h hh
    rw [baselineHashOf_scan_step_other excluded s fs force now db q p hpq]
    exact hs hmon h hh

theorem synced_scan_files_pres (excluded : List String) (s : Bool)
    (fs : String → FsEntry) (force : Bool) (now : Nat) (files : List String) :
    ∀ (db : DB) (p : String), synced excluded fs db p →
      synced excluded fs (scan_files excluded s fs db files force now) p := by
  induction files with
  | nil => exact fun db p h => h
  | cons q rest ih =>
    intro db p h
    show synced excluded fs
      (scan_files excluded s fs (scan_step excluded s fs force now db q) rest force now) p
    exact ih _ p (synced_preserved excluded s fs force now db p q h)

theorem synced_scan_files (excluded : List String) (s : Bool) (fs : String → FsEntry)
    (force : Bool) (now : Nat) (files : List String) (db : DB) (p : String)
    (hp : p ∈ files) :
    synced excluded fs (scan_files excluded s fs db files force now) p := by
  induction files generalizing db with
  | nil => exact absurd hp (List.not_mem_nil p)
  | cons q rest ih =>
    show synced excluded fs
      (scan_files excluded s fs (scan_step excluded s fs force now db q) rest force now) p
    rcases List.mem_cons.1 hp with hpq | hpr
    · subst hpq
      exact synced_scan_files_pres excluded s fs force now rest _ p
        (synced_scan_step excluded s fs force now db p)
    · exact ih _ hpr

theorem scan_step_log_of_synced (excluded : List String) (s : Bool)
    (fs : String → FsEntry) (now : Nat) (db : DB) (p : String)
    (hs : synced excluded fs db p) :
    (scan_step excluded s fs false now db p).change_log = db.change_log := by
  unfold scan_step
  by_cases hmon : should_monitor_file excluded p = true
  · rw [if_pos hmon]
    cases hc : calculate_file_hash (fs p) with
    | none => rw [process_file_eq_none excluded s fs db p false now hc]
    | some h =>
      have hb := hs hmon h hc
      unfold baselineHashOf at hb
      cases hg : get_file_info db p with
      | none => rw [hg] at hb; exact absurd hb (by simp)
      | some info =>
        rw [hg, Option.map_some'] at hb
        have hih : info.baseline_hash = some h := by simpa using hb
        rw [process_file_eq_same excluded s fs db p now h info hc hg (by simp [hih])]
        rw [update_scan_time_change_log]
  · rw [if_neg hmon]

theorem scan_files_log_of_synced (excluded : List String) (s : Bool)
    (fs : String → FsEntry) (now : Nat) (files : List String) (db : DB)
    (hall : ∀ p ∈ files, synced excluded fs db p) :
    (scan_files excluded s fs db files false now).change_log = db.change_log := by
  induction files generalizing db with
  | nil => rfl
  | cons q rest ih =>
    show (scan_files excluded s fs (scan_step excluded s fs false now db q)
      rest false now).change_log = db.change_log
    rw [ih _ (fun p hp =>
      synced_preserved excluded s fs false now db p q (hall p (List.mem_cons_of_mem q hp)))]
    exact scan_step_log_of_synced excluded s fs now db q
      (hall q (List.mem_cons_self q rest))

theorem handle_modified_log_of_synced (excluded : List String) (s : Bool)
    (fs : String → FsEntry) (db : DB) (p : String) (now : Nat)
    (h : baselineHashOf db p =
      some (if fsExists (fs p) then calculate_file_hash (fs p) else none)) :
    (handle_file_change excluded s fs db p "modified" now).change_log = db.change_log := by
  by_cases hmon : should_monitor_file excluded p = true
  · rw [handle_modified_eq excluded s fs db p now hmon]
    simp only [update_file_info_change_log]
    unfold baselineHashOf at h
    cases hg : get_file_info db p with
    | none => rw [hg] at h; exact absurd h (by simp)
    | some info =>
      rw [hg, Option.map_some'] at h
      have hbh : info.baseline_hash =
          (if fsExists (fs p) then calculate_file_hash (fs p) else none) := by
        simpa using h
      simp [hbh]
  · rw [handle_skip excluded s fs db p "modified" now (Bool.eq_false_iff.2 hmon)]

theorem handle_modified_idem (excluded : List String) (s1 s2 : Bool)
    (fs : String → FsEntry) (db : DB) (p : String) (n1 n2 : Nat) :
    (handle_file_change excluded s2 fs
        (handle_file_change excluded s1 fs db p "modified" n1) p "modified" n2).change_log =
      (handle_file_change excluded s1 fs db p "modified" n1).change_log := by
  by_cases hmon : should_monitor_file excluded p = true
  · exact handle_modified_log_of_synced excluded s2 fs _ p n2
      (baselineHashOf_handle_modified excluded s1 fs db p n1 hmon)
  · rw [handle_skip excluded s2 fs _ p "modified" n2 (Bool.eq_false_iff.2 hmon)]

theorem ite_record_false_change_log (c : Bool) (db : DB) (ev : ChangeEvent) :
    (if c then record_event false db ev else db).change_log = db.change_log := by
  cases c <;> rfl

theorem handle_store_failure_change_log (excluded : List String) (fs : String → FsEntry)
    (db : DB) (p et : String) (now : Nat) :
    (handle_file_change excluded false fs db p et now).change_log = db.change_log := by
  by_cases hmon : should_monitor_file excluded p = true
  · unfold handle_file_change
    rw [hmon]
    simp only [Bool.not_true, Bool.false_eq_true, if_false]
    cases hd : (et != "deleted") with
    | false =>
      rw [if_neg Bool.false_ne_true, remove_file_info_change_log,
        ite_record_false_change_log]
    | true =>
      rw [if_pos rfl, update_file_info_change_log, ite_record_false_change_log]
  · rw [handle_skip excluded false fs db p et now (Bool.eq_false_iff.2 hmon)]

theorem eraseScanTimes_update_scan_time (db : DB) (p : String) (now : Nat) :
    eraseScanTimes (update_scan_time db p now).monitored_files =
      eraseScanTimes db.monitored_files := by
  unfold eraseScanTimes update_scan_time
  rw [List.map_map]
  congr 1
  funext f
  show ({ (if f.file_path == p then
      { f with last_scanned_time := now, updated_at := now } else f) with
      last_scanned_time := 0, updated_at := 0 } : MonitoredFile) = _
  split <;> rfl

theorem scan_step_of_synced (excluded : List String) (s : Bool) (fs : String → FsEntry)
    (now : Nat) (db : DB) (p : String) (hs : synced excluded fs db p) :
    scan_step excluded s fs false now db p = db ∨
      scan_step excluded s fs false now db p = update_scan_time db p now := by
  unfold scan_step
  by_cases hmon : should_monitor_file excluded p = true
  · rw [if_pos hmon]
    cases hc : calculate_file_hash (fs p) with
    | none => exact Or.inl (process_file_eq_none excluded s fs db p false now hc)
    | some h =>
      have hb := hs hmon h hc
      unfold baselineHashOf at hb
      cases hg : get_file_info db p with
      | none => rw [hg] at hb; exact absurd hb (by simp)
      | some info =>
        rw [hg, Option.map_some'] at hb
        have hih : info.baseline_hash = some h := by simpa using hb
        exact Or.inr
          (process_file_eq_same excluded s fs db p now h info hc hg (by simp [hih]))
  · rw [if_neg hmon]
    exact Or.inl rfl

theorem scan_files_entries_of_synced (excluded : List String) (s : Bool)
    (fs : String → FsEntry) (now : Nat) (files : List String) (db : DB)
    (hall : ∀ p ∈ files, synced excluded fs db p) :
    eraseScanTimes (scan_files excluded s fs db files false now).monitored_files =
      eraseScanTimes db.monitored_files := by
  induction files generalizing db with
  | nil => rfl
  | cons q rest ih =>
    show eraseScanTimes (scan_files excluded s fs (scan_step excluded s fs false now db q)
      rest false now).monitored_files = eraseScanTimes db.monitored_files
    rw [ih _ (fun p hp =>
      synced_preserved excluded s fs false now db p q (hall p (List.mem_cons_of_mem q hp)))]
    rcases scan_step_of_synced excluded s fs now db q
        (hall q (List.mem_cons_self q rest)) with hstep | hstep
    · rw [hstep]
    · rw [hstep]
      exact eraseScanTimes_update_scan_time db q now


/-! Claim theorems. -/


/-- C1 counterexample: with a baseline entry holding hash a1b2 and a probe that fails with a read error (file exists, content unreadable), the notification-driven reconciliation of a modified hint does record a ChangeEvent and does alter the baseline entry, contradicting the claim that a ReadFailure aborts the reconciliation leaving both unchanged. -/
theorem C1_counterexample :
    (handle_file_change [] true exFsUnreadable exDb "/data/config.json" "modified" 7).change_log ≠ [] ∧
    get_file_info
      (handle_file_change [] true exFsUnreadable exDb "/data/config.json" "modified" 7)
      "/data/config.json" ≠ some exRow := by
  constructor <;> decide

/-- C1 (amended): a probe ReadFailure aborts only the scan-driven reconciliation — process_file returns the store unchanged, no event, baseline untouched; the notification-driven path instead treats the failed hash as null: a modified hint on a path with a stored hash records a modified event with an absent newHash and overwrites the baseline hash with null (status still OK). -/
theorem C1_read_failure (excluded : List String) (s : Bool) (fs : String → FsEntry)
    (db : DB) (p : String) (force : Bool) (now sz : Nat) (info : MonitoredFile)
    (h : String)
    (hfs : fs p = FsEntry.unreadable sz)
    (hmon : should_monitor_file excluded p = true)
    (hinfo : get_file_info db p = some info)
    (hhash : info.baseline_hash = some h) :
    process_file excluded s fs db p force now = db ∧
    (handle_file_change excluded true fs db p "modified" now).change_log =
      db.change_log ++
        [{ file_path := p, event_type := "modified", event_time := now,
           old_hash := some h, new_hash := none, file_size := sz }] ∧
    baselineHashOf (handle_file_change excluded true fs db p "modified" now) p =
      some none := by
  have hc : calculate_file_hash (fs p) = none := by rw [hfs]; rfl
  have hnh : (if fsExists (fs p) then calculate_file_hash (fs p) else none) = none := by
    rw [hfs]; rfl
  have hsz2 : (if fsExists (fs p) then fsSize (fs p) else 0) = sz := by
    rw [hfs]; rfl
  refine ⟨process_file_eq_none excluded s fs db p force now hc, ?_, ?_⟩
  · rw [handle_modified_eq excluded true fs db p now hmon]
    simp only [hnh, hsz2, update_file_info_change_log, hinfo]
    simp [hhash, record_event, record_event_insert]
  · rw [handle_modified_eq excluded true fs db p now hmon]
    simp only [hnh, hsz2, baselineHashOf_update]

/-- C1 witness: the amended ReadFailure theorem instantiated at the concrete scenario store. -/
theorem C1_read_failure_witness :
    process_file [] true exFsUnreadable exDb "/data/config.json" false 7 = exDb ∧
    (handle_file_change [] true exFsUnreadable exDb "/data/config.json" "modified" 7).change_log =
      exDb.change_log ++
        [{ file_path := "/data/config.json", event_type := "modified", event_time := 7,
           old_hash := some "a1b2", new_hash := none, file_size := 5 }] ∧
    baselineHashOf
      (handle_file_change [] true exFsUnreadable exDb "/data/config.json" "modified" 7)
      "/data/config.json" = some none :=
  C1_read_failure [] true exFsUnreadable exDb "/data/config.json" false 7 5 exRow "a1b2"
    rfl (by decide) rfl rfl

/-- C2 counterexample: reconciling a deleted hint for /data/config.json physically deletes the baseline row — monitored_files becomes empty; no entry with status MISSING is retained, contradicting the claim. -/
theorem C2_counterexample :
    (handle_file_change [] true exFsAbsent exDb "/data/config.json" "deleted" 7).monitored_files
      = [] := by
  decide

/-- C2 (amended): for a monitorable path with a baseline entry, a deleted reconciliation records exactly one deleted ChangeEvent carrying previousHash = the stored baseline hash and an absent newHash, and the baseline entry is physically removed from the store (remove_file_info issues a SQL DELETE; no MISSING status exists anywhere in the code). -/
theorem C2_deleted_removes_entry (excluded : List String) (fs : String → FsEntry)
    (db : DB) (p : String) (now : Nat) (info : MonitoredFile)
    (hmon : should_monitor_file excluded p = true)
    (hinfo : get_file_info db p = some info) :
    (handle_file_change excluded true fs db p "deleted" now).change_log =
      db.change_log ++
        [{ file_path := p, event_type := "deleted", event_time := now,
           old_hash := info.baseline_hash, new_hash := none, file_size := 0 }] ∧
    get_file_info (handle_file_change excluded true fs db p "deleted" now) p = none := by
  rw [handle_deleted_eq excluded true fs db p now hmon]
  refine ⟨?_, get_file_info_remove_self _ p⟩
  rw [remove_file_info_change_log, record_event_true_eq]
  simp [hinfo]

/-- C2 witness: the amended deletion theorem instantiated at the concrete scenario store. -/
theorem C2_deleted_removes_entry_witness :
    (handle_file_change [] true exFsAbsent exDb "/data/config.json" "deleted" 7).change_log =
      exDb.change_log ++
        [{ file_path := "/data/config.json", event_type := "deleted", event_time := 7,
           old_hash := exRow.baseline_hash, new_hash := none, file_size := 0 }] ∧
    get_file_info (handle_file_change [] true exFsAbsent exDb "/data/config.json" "deleted" 7)
      "/data/config.json" = none :=
  C2_deleted_removes_entry [] exFsAbsent exDb "/data/config.json" 7 exRow (by decide) rfl

/-- C3 counterexample: a deleted hint for a path with no baseline entry still records a ChangeEvent, contradicting the claim that no event is emitted for an unknown path. -/
theorem C3_counterexample :
    (handle_file_change [] true exFsAbsent exDbEmpty "/ghost" "deleted" 7).change_log ≠ [] := by
  decide

/-- C3 (amended): a deleted hint is recorded unconditionally — for a monitorable path with no prior baseline entry, reconciliation emits exactly one deleted ChangeEvent with both hashes absent, while the baseline table itself is unchanged. (No MISSING status exists in the code, so the claim precondition about a MISSING entry is unrepresentable.) -/
theorem C3_unknown_deleted_records (excluded : List String) (fs : String → FsEntry)
    (db : DB) (p : String) (now : Nat)
    (hmon : should_monitor_file excluded p = true)
    (hnone : get_file_info db p = none) :
    (handle_file_change excluded true fs db p "deleted" now).change_log =
      db.change_log ++
        [{ file_path := p, event_type := "deleted", event_time := now,
           old_hash := none, new_hash := none, file_size := 0 }] ∧
    (handle_file_change excluded true fs db p "deleted" now).monitored_files =
      db.monitored_files := by
  rw [handle_deleted_eq excluded true fs db p now hmon]
  constructor
  · rw [remove_file_info_change_log, record_event_true_eq]
    simp [hnone]
  · rw [remove_file_info_absent _ p (by rw [get_file_info_record]; exact hnone)]
    exact record_event_monitored_files true db _

/-- C3 witness: the amended theorem instantiated at an empty store and an absent path. -/
theorem C3_unknown_deleted_records_witness :
    (handle_file_change [] true exFsAbsent exDbEmpty "/ghost" "deleted" 7).change_log =
      exDbEmpty.change_log ++
        [{ file_path := "/ghost", event_type := "deleted", event_time := 7,
           old_hash := none, new_hash := none, file_size := 0 }] ∧
    (handle_file_change [] true exFsAbsent exDbEmpty "/ghost" "deleted" 7).monitored_files =
      exDbEmpty.monitored_files :=
  C3_unknown_deleted_records [] exFsAbsent exDbEmpty "/ghost" 7 (by decide) rfl

/-- C4: for a file with a baseline entry of status OK whose current content hash differs from the stored baseline hash, the reconciliation records exactly one modified ChangeEvent whose previousHash equals the stored hash and whose newHash equals the freshly computed hash, and the baseline entry is updated to the new hash with status OK; the scan-driven path routes through the very same notification reconciliation. -/
theorem C4_modified_detection (excluded : List String) (fs : String → FsEntry) (db : DB)
    (p : String) (now sz : Nat) (oldh newh : String) (info : MonitoredFile)
    (hmon : should_monitor_file excluded p = true)
    (hinfo : get_file_info db p = some info)
    (hold : info.baseline_hash = some oldh)
    (hstat : info.status = "OK")
    (hfs : fs p = FsEntry.file newh sz)
    (hne : oldh ≠ newh) :
    (handle_file_change excluded true fs db p "modified" now).change_log =
      db.change_log ++
        [{ file_path := p, event_type := "modified", event_time := now,
           old_hash := some oldh, new_hash := some newh, file_size := sz }] ∧
    get_file_info (handle_file_change excluded true fs db p "modified" now) p =
      some { info with
             baseline_hash := some newh, baseline_size := sz,
             last_scanned_time := now, updated_at := now, status := "OK" } ∧
    process_file excluded true fs db p false now =
      handle_file_change excluded true fs db p "modified" now := by
  have hc : calculate_file_hash (fs p) = some newh := by rw [hfs]; rfl
  have hnh : (if fsExists (fs p) then calculate_file_hash (fs p) else none) = some newh := by
    rw [hfs]; rfl
  have hsz2 : (if fsExists (fs p) then fsSize (fs p) else 0) = sz := by
    rw [hfs]; rfl
  have hbeq : (info.baseline_hash == some newh) = false := by
    simp [hold]
    exact hne
  refine ⟨?_, ?_,
    process_file_eq_changed excluded true fs db p now newh info hc hinfo hbeq⟩
  · rw [handle_modified_eq excluded true fs db p now hmon]
    simp only [hnh, hsz2, update_file_info_change_log, hinfo]
    simp [hold, hne, record_event, record_event_insert]
  · rw [handle_modified_eq excluded true fs db p now hmon]
    simp only [hnh, hsz2]
    rw [get_file_info_update_self _ p (some newh) sz now info
      (by rw [get_file_info_ite_record]; exact hinfo)]

/-- C4 witness: the hash-change theorem instantiated at the spec scenario (a1b2 changed to c3d4). -/
theorem C4_modified_detection_witness :
    (handle_file_change [] true exFsModified exDb "/data/config.json" "modified" 7).change_log =
      exDb.change_log ++
        [{ file_path := "/data/config.json", event_type := "modified", event_time := 7,
           old_hash := some "a1b2", new_hash := some "c3d4", file_size := 7 }] ∧
    get_file_info
      (handle_file_change [] true exFsModified exDb "/data/config.json" "modified" 7)
      "/data/config.json" =
      some { exRow with
             baseline_hash := some "c3d4", baseline_size := 7,
             last_scanned_time := 7, updated_at := 7, status := "OK" } ∧
    process_file [] true exFsModified exDb "/data/config.json" false 7 =
      handle_file_change [] true exFsModified exDb "/data/config.json" "modified" 7 :=
  C4_modified_detection [] exFsModified exDb "/data/config.json" 7 7 "a1b2" "c3d4" exRow
    (by decide) rfl rfl rfl rfl (by decide)

/-- C5: reconciliation is idempotent on unchanged content — a second modified reconciliation of an untouched file emits no ChangeEvent, and running a full scan twice in immediate succession over an unchanged tree of any size produces zero ChangeEvents on the second pass and changes nothing in the baseline table except the scan-time bookkeeping fields. -/
theorem C5_no_op_stability (excluded : List String) (s1 s2 : Bool) (fs : String → FsEntry)
    (db db2 : DB) (p : String) (n1 n2 m1 m2 : Nat) (files : List String) :
    (handle_file_change excluded s2 fs
        (handle_file_change excluded s1 fs db p "modified" n1) p "modified" n2).change_log =
      (handle_file_change excluded s1 fs db p "modified" n1).change_log ∧
    (scan_files excluded s2 fs (scan_files excluded s1 fs db2 files false m1)
        files false m2).change_log =
      (scan_files excluded s1 fs db2 files false m1).change_log ∧
    eraseScanTimes ((scan_files excluded s2 fs
        (scan_files excluded s1 fs db2 files false m1) files false m2).monitored_files) =
      eraseScanTimes ((scan_files excluded s1 fs db2 files false m1).monitored_files) :=
  ⟨handle_modified_idem excluded s1 s2 fs db p n1 n2,
   scan_files_log_of_synced excluded s2 fs m2 files _
     (fun q hq => synced_scan_files excluded s1 fs false m1 files db2 q hq),
   scan_files_entries_of_synced excluded s2 fs m2 files _
     (fun q hq => synced_scan_files excluded s1 fs false m1 files db2 q hq)⟩

/-- C6 counterexample: a scan discovering brand-new /data/new.txt inserts a baseline row with hash e5f6 and status OK but records no created ChangeEvent, contradicting the claim that a scan-driven reconciliation also emits one. -/
theorem C6_counterexample :
    (process_file [] true exFsNew exDbEmpty "/data/new.txt" false 3).change_log = [] ∧
    (process_file [] true exFsNew exDbEmpty "/data/new.txt" false 3).monitored_files =
      [{ file_path := "/data/new.txt", baseline_hash := some "e5f6", baseline_size := 9,
         status := "OK", last_scanned_time := 3, updated_at := 3 }] := by
  constructor <;> rfl

/-- C6 (amended): for a path with no prior baseline entry whose probe succeeds, only the created-notification reconciliation records exactly one created ChangeEvent, inserting a baseline row with the probed hash and status OK; the scan-driven path inserts the same baseline row silently, recording no event. -/
theorem C6_created_event (excluded : List String) (fs : String → FsEntry) (db : DB)
    (p h : String) (sz now : Nat)
    (hmon : should_monitor_file excluded p = true)
    (hnone : get_file_info db p = none)
    (hfs : fs p = FsEntry.file h sz) :
    (handle_file_change excluded true fs db p "created" now).change_log =
      db.change_log ++
        [{ file_path := p, event_type := "created", event_time := now,
           old_hash := none, new_hash := some h, file_size := sz }] ∧
    get_file_info (handle_file_change excluded true fs db p "created" now) p =
      some { file_path := p, baseline_hash := some h, baseline_size := sz,
             status := "OK", last_scanned_time := now, updated_at := now } ∧
    (process_file excluded true fs db p false now).change_log = db.change_log ∧
    get_file_info (process_file excluded true fs db p false now) p =
      some { file_path := p, baseline_hash := some h, baseline_size := sz,
             status := "OK", last_scanned_time := now, updated_at := now } := by
  have hc : calculate_file_hash (fs p) = some h := by rw [hfs]; rfl
  have hnh : (if fsExists (fs p) then calculate_file_hash (fs p) else none) = some h := by
    rw [hfs]; rfl
  have hsz2 : (if fsExists (fs p) then fsSize (fs p) else 0) = sz := by
    rw [hfs]; rfl
  have hfsz : fsSize (fs p) = sz := by rw [hfs]; rfl
  have hpf := process_file_eq_new excluded true fs db p false now h hc hnone
  refine ⟨?_, ?_, ?_, ?_⟩
  · rw [handle_created_eq excluded true fs db p now hmon]
    simp only [hnh, hsz2, update_file_info_change_log, hnone]
    simp [record_event, record_event_insert]
  · rw [handle_created_eq excluded true fs db p now hmon]
    simp only [hnh, hsz2]
    rw [get_file_info_update_new _ p (some h) sz now
      (by rw [get_file_info_ite_record]; exact hnone)]
  · rw [hpf, update_file_info_change_log]
  · rw [hpf, hfsz, get_file_info_update_new _ p (some h) sz now hnone]

/-- C6 witness: the amended creation theorem instantiated at the spec scenario for /data/new.txt. -/
theorem C6_created_event_witness :
    (handle_file_change [] true exFsNew exDbEmpty "/data/new.txt" "created" 3).change_log =
      exDbEmpty.change_log ++
        [{ file_path := "/data/new.txt", event_type := "created", event_time := 3,
           old_hash := none, new_hash := some "e5f6", file_size := 9 }] ∧
    get_file_info (handle_file_change [] true exFsNew exDbEmpty "/data/new.txt" "created" 3)
      "/data/new.txt" =
      some { file_path := "/data/new.txt", baseline_hash := some "e5f6", baseline_size := 9,
             status := "OK", last_scanned_time := 3, updated_at := 3 } ∧
    (process_file [] true exFsNew exDbEmpty "/data/new.txt" false 3).change_log =
      exDbEmpty.change_log ∧
    get_file_info (process_file [] true exFsNew exDbEmpty "/data/new.txt" false 3)
      "/data/new.txt" =
      some { file_path := "/data/new.txt", baseline_hash := some "e5f6", baseline_size := 9,
             status := "OK", last_scanned_time := 3, updated_at := 3 } :=
  C6_created_event [] exFsNew exDbEmpty "/data/new.txt" "e5f6" 9 3 (by decide) rfl rfl

/-- C7 counterexample: a same-directory move of d/a.txt to d/b.txt invokes the Reconciler three times, not twice, and the destination path receives two ChangeEvents — moved then renamed — not a single renamed event. -/
theorem C7_counterexample :
    (on_moved_calls "d/a.txt" "d/b.txt").length = 3 ∧
    ((on_moved [] true exFsMove exDbMove "d/a.txt" "d/b.txt" 7).change_log.filter
        (fun e => e.file_path == "d/b.txt")).map (fun e => e.event_type) =
      ["moved", "renamed"] := by
  constructor <;> rfl

/-- C7 (amended): for a move notification the handler invokes the Reconciler twice when source and destination directories differ — the source as deleted and the destination as moved, gaining two events — and three times when the directories are equal — additionally the destination as renamed — so that in the same-directory case the change log gains three events: a deleted event for the vacated source and both a moved and a renamed event for the destination. -/
theorem C7_moved_invocations (excluded : List String) (fs : String → FsEntry)
    (db : DB) (src dest h : String) (now sz : Nat) (info : MonitoredFile)
    (hne : src ≠ dest)
    (hms : should_monitor_file excluded src = true)
    (hmd : should_monitor_file excluded dest = true)
    (hsrc : get_file_info db src = some info)
    (hdest : get_file_info db dest = none)
    (hfs : fs dest = FsEntry.file h sz) :
    (dirname src ≠ dirname dest →
      on_moved_calls src dest = [(src, "deleted"), (dest, "moved")] ∧
      (on_moved excluded true fs db src dest now).change_log =
        db.change_log ++
          [{ file_path := src, event_type := "deleted", event_time := now,
             old_hash := info.baseline_hash, new_hash := none, file_size := 0 },
           { file_path := dest, event_type := "moved", event_time := now,
             old_hash := none, new_hash := some h, file_size := sz }]) ∧
    (dirname src = dirname dest →
      on_moved_calls src dest = [(src, "deleted"), (dest, "moved"), (dest, "renamed")] ∧
      (on_moved excluded true fs db src dest now).change_log =
        db.change_log ++
          [{ file_path := src, event_type := "deleted", event_time := now,
             old_hash := info.baseline_hash, new_hash := none, file_size := 0 },
           { file_path := dest, event_type := "moved", event_time := now,
             old_hash := none, new_hash := some h, file_size := sz },
           { file_path := dest, event_type := "renamed", event_time := now,
             old_hash := some h, new_hash := some h, file_size := sz }]) := by
  have hnh : (if fsExists (fs dest) then calculate_file_hash (fs dest) else none) = some h := by
    rw [hfs]; rfl
  have hsz2 : (if fsExists (fs dest) then fsSize (fs dest) else 0) = sz := by
    rw [hfs]; rfl
  have h1log : (handle_file_change excluded true fs db src "deleted" now).change_log =
      db.change_log ++
        [{ file_path := src, event_type := "deleted", event_time := now,
           old_hash := info.baseline_hash, new_hash := none, file_size := 0 }] := by
    rw [handle_deleted_eq excluded true fs db src now hms,
      remove_file_info_change_log, record_event_true_eq]
    simp [hsrc]
  have h1get : get_file_info (handle_file_change excluded true fs db src "deleted" now)
      dest = none := by
    rw [get_file_info_handle_other excluded true fs db src "deleted" now dest
      (Ne.symm hne)]
    exact hdest
  have hmv := handle_other_eq excluded true fs
    (handle_file_change excluded true fs db src "deleted" now) dest "moved" now
    hmd rfl rfl rfl
  have h2log : (handle_file_change excluded true fs
      (handle_file_change excluded true fs db src "deleted" now) dest "moved" now).change_log =
      (handle_file_change excluded true fs db src "deleted" now).change_log ++
        [{ file_path := dest, event_type := "moved", event_time := now,
           old_hash := none, new_hash := some h, file_size := sz }] := by
    rw [hmv, update_file_info_change_log, record_event_true_eq]
    simp [h1get, hnh, hsz2]
  constructor
  · intro hdiff
    have hcalls2 : on_moved_calls src dest = [(src, "deleted"), (dest, "moved")] := by
      unfold on_moved_calls
      rw [if_neg (by simp [hdiff])]
      simp
    refine ⟨hcalls2, ?_⟩
    unfold on_moved
    rw [hcalls2]
    show (handle_file_change excluded true fs
        (handle_file_change excluded true fs db src "deleted" now) dest "moved" now).change_log = _
    rw [h2log, h1log]
    simp
  · intro hdir
    have hcalls3 : on_moved_calls src dest =
        [(src, "deleted"), (dest, "moved"), (dest, "renamed")] := by
      unfold on_moved_calls
      rw [hdir]
      simp
    have h2get : get_file_info (handle_file_change excluded true fs
        (handle_file_change excluded true fs db src "deleted" now) dest "moved" now) dest =
        some { file_path := dest, baseline_hash := some h, baseline_size := sz,
               status := "OK", last_scanned_time := now, updated_at := now } := by
      rw [hmv]
      rw [get_file_info_update_new _ dest _ _ now
        (by rw [get_file_info_record]; exact h1get)]
      rw [hnh, hsz2]
    have hrn := handle_other_eq excluded true fs
      (handle_file_change excluded true fs
        (handle_file_change excluded true fs db src "deleted" now) dest "moved" now)
      dest "renamed" now hmd rfl rfl rfl
    have h3log : (handle_file_change excluded true fs
        (handle_file_change excluded true fs
          (handle_file_change excluded true fs db src "deleted" now) dest "moved" now)
        dest "renamed" now).change_log =
        (handle_file_change excluded true fs
          (handle_file_change excluded true fs db src "deleted" now)
          dest "moved" now).change_log ++
          [{ file_path := dest, event_type := "renamed", event_time := now,
             old_hash := some h, new_hash := some h, file_size := sz }] := by
      rw [hrn, update_file_info_change_log, record_event_true_eq]
      simp [h2get, hnh, hsz2]
    refine ⟨hcalls3, ?_⟩
    unfold on_moved
    rw [hcalls3]
    show (handle_file_change excluded true fs
        (handle_file_change excluded true fs
          (handle_file_change excluded true fs db src "deleted" now) dest "moved" now)
        dest "renamed" now).change_log = _
    rw [h3log, h2log, h1log]
    simp

/-- C7 witness: the amended move theorem instantiated at the concrete same-directory rename of d/a.txt to d/b.txt (three invocations, three events) and at the concrete cross-directory move of d/a.txt to e/b.txt (two invocations, two events). -/
theorem C7_moved_invocations_witness :
    (on_moved_calls "d/a.txt" "d/b.txt" =
      [("d/a.txt", "deleted"), ("d/b.txt", "moved"), ("d/b.txt", "renamed")] ∧
    (on_moved [] true exFsMove exDbMove "d/a.txt" "d/b.txt" 7).change_log =
      exDbMove.change_log ++
        [{ file_path := "d/a.txt", event_type := "deleted", event_time := 7,
           old_hash := exRowMove.baseline_hash, new_hash := none, file_size := 0 },
         { file_path := "d/b.txt", event_type := "moved", event_time := 7,
           old_hash := none, new_hash := some "h1", file_size := 4 },
         { file_path := "d/b.txt", event_type := "renamed", event_time := 7,
           old_hash := some "h1", new_hash := some "h1", file_size := 4 }]) ∧
    (on_moved_calls "d/a.txt" "e/b.txt" = [("d/a.txt", "deleted"), ("e/b.txt", "moved")] ∧
    (on_moved [] true exFsMoveAway exDbMove "d/a.txt" "e/b.txt" 7).change_log =
      exDbMove.change_log ++
        [{ file_path := "d/a.txt", event_type := "deleted", event_time := 7,
           old_hash := exRowMove.baseline_hash, new_hash := none, file_size := 0 },
         { file_path := "e/b.txt", event_type := "moved", event_time := 7,
           old_hash := none, new_hash := some "h1", file_size := 4 }]) :=
  ⟨(C7_moved_invocations [] exFsMove exDbMove "d/a.txt" "d/b.txt" "h1" 7 4 exRowMove
      (by decide) (by decide) (by decide) rfl rfl rfl).2 rfl,
   (C7_moved_invocations [] exFsMoveAway exDbMove "d/a.txt" "e/b.txt" "h1" 7 4 exRowMove
      (by decide) (by decide) (by decide) rfl rfl rfl).1 (by decide)⟩

/-- C8 counterexample: with the durable store failing, the change-log INSERT errors, yet record_event returns the rolled-back store as a normal value and the reconciliation of a genuine hash change logs no event while still updating the baseline — the event is silently dropped and no failure reaches the caller, contradicting the claim. -/
theorem C8_counterexample :
    record_event_insert false exDb exEvent = Except.error "StoreFailure" ∧
    record_event false exDb exEvent = exDb ∧
    (handle_file_change [] false exFsModified exDb "/data/config.json" "modified" 7).change_log
      = [] ∧
    get_file_info
      (handle_file_change [] false exFsModified exDb "/data/config.json" "modified" 7)
      "/data/config.json" =
      some { file_path := "/data/config.json", baseline_hash := some "c3d4",
             baseline_size := 7, status := "OK", last_scanned_time := 7, updated_at := 7 } :=
  ⟨rfl, rfl, rfl, rfl⟩

/-- C8 (amended): a durable-store failure while recording a ChangeEvent is caught inside record_event, which rolls back and returns normally; no failure propagates to the caller of the Reconciler, and the change log is left unchanged for every hint kind — the event is dropped rather than surfaced. -/
theorem C8_store_failure_swallowed (db : DB) (ev : ChangeEvent) (excluded : List String)
    (fs : String → FsEntry) (p et : String) (now : Nat) :
    record_event false db ev = db ∧
    (handle_file_change excluded false fs db p et now).change_log = db.change_log :=
  ⟨rfl, handle_store_failure_change_log excluded fs db p et now⟩

/-- C9 counterexample: the predicate used by the Reconciler accepts /data/subdir under an empty exclusion list; being a pure function of the path string that never consults the filesystem, it returns true for this path even when the path denotes a directory or a symbolic link, contradicting the claim. -/
theorem C9_counterexample :
    should_monitor_file [] "/data/subdir" = true := by decide

/-- C9 (amended): the predicate used by the Reconciler rejects exactly the paths containing a configured exclusion substring or a built-in transient pattern and performs no symlink or directory check; only the baseline initializer has a separate filter that additionally rejects symbolic links and non-regular files, directories included. -/
theorem C9_filter_no_type_checks (excluded : List String) (p : String)
    (kind : String → PathKind) :
    should_monitor_file excluded p =
      (!(excluded.any (fun pat => strContains p pat)) &&
       !(skip_patterns.any (fun pat => strContains p pat))) ∧
    (islink (kind p) = true → baseline_should_monitor_file kind p = false) ∧
    (isfile (kind p) = false → baseline_should_monitor_file kind p = false) := by
  refine ⟨?_, ?_, ?_⟩
  · unfold should_monitor_file
    cases excluded.any (fun pat => strContains p pat) <;>
      cases skip_patterns.any (fun pat => strContains p pat) <;> rfl
  · intro hl
    unfold baseline_should_monitor_file
    cases baseline_skip_patterns.any (fun pat => strContains p pat)
    · simp [hl]
    · rfl
  · intro hf
    unfold baseline_should_monitor_file
    cases baseline_skip_patterns.any (fun pat => strContains p pat)
    · simp [hf]
    · rfl

/-- C9 witness: the amended filter theorem applied to a symlink path and to a directory path for the baseline initializer filter. -/
theorem C9_filter_witness :
    baseline_should_monitor_file (fun _ => PathKind.symlinkToFile) "/etc/passwd" = false ∧
    baseline_should_monitor_file (fun _ => PathKind.directory) "/etc" = false :=
  ⟨(C9_filter_no_type_checks [] "/etc/passwd" (fun _ => PathKind.symlinkToFile)).2.1 rfl,
   (C9_filter_no_type_checks [] "/etc" (fun _ => PathKind.directory)).2.2 rfl⟩

/-- C10: the monitor path filter is plain substring containment — a path is rejected exactly when some configured exclusion pattern or built-in pattern (.git, __pycache__, .pyc, .tmp, .log) occurs as a substring anywhere inside the path string; by construction the predicate depends only on the path string and the configured pattern list. -/
theorem C10_substring_containment (excluded : List String) (p : String) :
    should_monitor_file excluded p = false ↔
      ∃ pat, (pat ∈ excluded ∨ pat ∈ skip_patterns) ∧ List.IsInfix pat.data p.data := by
  unfold should_monitor_file
  constructor
  · intro hf
    cases hA : excluded.any (fun pat => strContains p pat) with
    | true =>
      obtain ⟨pat, hmem, hc⟩ := List.any_eq_true.1 hA
      refine ⟨pat, Or.inl hmem, ?_⟩
      unfold strContains at hc
      exact of_decide_eq_true hc
    | false =>
      cases hB : skip_patterns.any (fun pat => strContains p pat) with
      | true =>
        obtain ⟨pat, hmem, hc⟩ := List.any_eq_true.1 hB
        refine ⟨pat, Or.inr hmem, ?_⟩
        unfold strContains at hc
        exact of_decide_eq_true hc
      | false =>
        rw [hA, hB] at hf
        simp at hf
  · rintro ⟨pat, hmem | hmem, hinf⟩
    · have hA : excluded.any (fun pat => strContains p pat) = true :=
        List.any_eq_true.2 ⟨pat, hmem, by unfold strContains; exact decide_eq_true hinf⟩
      simp [hA]
    · have hB : skip_patterns.any (fun pat => strContains p pat) = true :=
        List.any_eq_true.2 ⟨pat, hmem, by unfold strContains; exact decide_eq_true hinf⟩
      simp [hB]

/-- C10 witness: the substring characterization applied at a concrete excluded path. -/
theorem C10_substring_containment_witness :
    should_monitor_file ["secret"] "/data/secret/f.txt" = false :=
  (C10_substring_containment ["secret"] "/data/secret/f.txt").2
    ⟨"secret", Or.inl (by simp), by decide⟩

end FIM
